import Mathlib

/-!
Verification development for the PointCloudVisualizer repository.

The core under verification is the GPU ring-buffer streaming upload mechanism
(`src/gl_wrappers/buffer.rs`) and the instance-upload path of the scene
renderer (`src/rendering/scene_renderer.rs`), together with the cluster-colour
mapping (`src/rendering/cluster_colour.rs`, `src/ipc_logic/ipc_content_logic.rs`)
and the IPC point parser (`src/ipc_logic/ipc_receiver.rs`).

Modelling conventions for the shallow embedding:
* OpenGL driver calls are observable effects.  Every operation returns, next to
  its updated state, the list of `GLEvent`s it issued, in order.  Driver
  nondeterminism (the result of `glClientWaitSync`) is an oracle parameter
  `env : Nat → WaitStatus` giving the result of the k-th `ClientWaitSync`
  issued by one `wait_for_buffer` invocation.
* `std::process::exit(-1)` cannot return; it is modelled by an `exitProgram`
  event together with a `false` "still running" flag, and every caller
  propagates the flag without performing further work, mirroring the fact that
  the real process has terminated.
* A GPU memory region is `Nat → Option α`: element-indexed contents (`none` =
  never written).  All verified call paths write a single element type per
  buffer, so element granularity is faithful; byte positions are recovered as
  `sizeT * elementIndex`.  `sizeT` is the per-call `size_of::<T>()`.
* Machine integers (`usize`, `u32`, `isize`) are modelled as `Nat`/`Int`.
  None of the verified flows exercise wrap-around except the
  `(cluster_index + 1) as usize` cast, which is modelled explicitly as
  arithmetic modulo 2^64.  Rust `u32` subtraction in the clipping logic is
  modelled by truncated `Nat` subtraction; all verified flows maintain
  `current_instance_upload_index ≤ max_number_instances`, where the two agree.
* Fences are identified by numeric ids; `next_fence_id` is the supply of fresh
  ids (`glFenceSync` results).
-/

namespace PointCloudViz

/-- Result of a `glClientWaitSync` call, as distinguished by `buffer.rs`. -/
inductive WaitStatus
  | alreadySignaled
  | conditionSatisfied
  | timeoutExpired
  | waitFailed
deriving DecidableEq, Repr

/-- The test `wait_result == gl::ALREADY_SIGNALED || wait_result == gl::CONDITION_SATISFIED`
used after every wait in `Buffer::wait_for_buffer`. -/
def WaitStatus.signaled : WaitStatus → Bool
  | .alreadySignaled => true
  | .conditionSatisfied => true
  | _ => false

/-- Observable driver-level effects issued by the buffer operations.
`advanceIndex` records the `current_buffer_index` rotation at the start of
`write_data_offset` (line 92 of `buffer.rs`); `copyInto` records the
`copy_nonoverlapping` host-side copy (region, element offset, element count);
`bindRegion` records `update_binding`; `reportWaitError` records the
diagnostic `eprintln!` of the fatal wait path and `exitProgram` the
`exit(-1)` that follows it. -/
inductive GLEvent
  | advanceIndex (newIndex : Nat)
  | clientWaitSync (fence : Nat) (flushBit : Bool) (timeout : Nat)
  | flush
  | copyInto (region : Nat) (elemOffset : Nat) (numElems : Nat)
  | bindRegion (region : Nat)
  | deleteSync (fence : Nat)
  | fenceSync (fence : Nat)
  | reportWaitError
  | exitProgram (code : Int)
deriving DecidableEq, Repr

/-- `BufferType` from `buffer.rs`: a strided vertex-attribute source at a
binding point, or an index-list source. -/
inductive BufferType
  | array (bindingPoint : Nat) (stride : Int)
  | indice
deriving DecidableEq, Repr

/-- The `Buffer` struct of `buffer.rs`.  `regions` replaces the
`buffers`/`pointers` pairs (one mapped memory block per ring slot);
`next_fence_id` is the ghost supply of fresh `glFenceSync` ids. -/
structure Buffer (α : Type) where
  regions : List (Nat → Option α)
  fences : List Nat
  current_buffer_index : Nat
  number_buffers : Nat
  buffer_type : BufferType
  size_buffer_bytes : Nat
  next_fence_id : Nat

/-- Host-side copy of `data` into region contents `r` starting at element
offset `e` (the `copy_nonoverlapping` of `buffer.rs`). -/
def writeRegion {α : Type} (r : Nat → Option α) (e : Nat) (data : List α) : Nat → Option α :=
  fun i => if e ≤ i ∧ i < e + data.length then data.get? (i - e) else r i

/-- `Buffer::new` (buffer.rs lines 40-68): allocates `number_buffers` regions,
creates one fence per region (initially satisfied), sets
`current_buffer_index` to 0 and binds region 0 for reads. -/
def Buffer.new (α : Type) (size_buffer_bytes : Nat) (number_buffers : Nat)
    (buffer_type : BufferType) : Buffer α × List GLEvent :=
  ({ regions := List.replicate number_buffers (fun _ => none)
     fences := List.range number_buffers
     current_buffer_index := 0
     number_buffers := number_buffers
     buffer_type := buffer_type
     size_buffer_bytes := size_buffer_bytes
     next_fence_id := number_buffers },
   (List.range number_buffers).map GLEvent.fenceSync ++ [GLEvent.bindRegion 0])

/-- `Buffer::wait_for_buffer` (buffer.rs lines 129-166).  `env k` is the
driver's answer to the k-th `ClientWaitSync` of this invocation.  Returns the
events issued and `true` when the wait succeeded, `false` when the fatal
`exit(-1)` path was taken. -/
def wait_for_buffer (fence : Nat) (timeout : Nat) (env : Nat → WaitStatus) :
    List GLEvent × Bool :=
  -- First try without any flushing and no timeout, in case buffer is already free
  let e0 := GLEvent.clientWaitSync fence false 0
  if (env 0).signaled then ([e0], true)
  else
    -- Buffer is not free, wait for the specified amount of time
    let e1 := GLEvent.clientWaitSync fence false timeout
    if (env 1).signaled then ([e0, e1], true)
    else
      -- Hint to driver to make the buffer free by flushing commands, and wait again
      let e2 := GLEvent.clientWaitSync fence true timeout
      if (env 2).signaled then ([e0, e1, e2], true)
      else
        -- One last final attempt: execute all OpenGL commands issued earlier and wait
        let e3 := GLEvent.clientWaitSync fence true timeout
        if (env 3).signaled then ([e0, e1, e2, GLEvent.flush, e3], true)
        else
          ([e0, e1, e2, GLEvent.flush, e3, GLEvent.reportWaitError,
            GLEvent.exitProgram (-1)], false)

/-- `Buffer::write_data_offset` (buffer.rs lines 88-99): rotates
`current_buffer_index`, waits on the new region's fence, copies `data` at
element offset `offset_bytes / sizeT`, and re-establishes the read binding.
On the fatal wait path the process has exited: no copy, no rebinding. -/
def Buffer.write_data_offset {α : Type} (b : Buffer α) (data : List α)
    (timeout : Nat) (offset_bytes : Nat) (sizeT : Nat) (env : Nat → WaitStatus) :
    Buffer α × List GLEvent × Bool :=
  let number_elements_offset := offset_bytes / sizeT
  let idx := (b.current_buffer_index + 1) % b.number_buffers
  let b1 := { b with current_buffer_index := idx }
  let w := wait_for_buffer (b1.fences.getD idx 0) timeout env
  if w.2 then
    let newRegion := writeRegion (b1.regions.getD idx (fun _ => none))
      number_elements_offset data
    let b2 := { b1 with regions := b1.regions.set idx newRegion }
    (b2, GLEvent.advanceIndex idx :: w.1 ++
      [GLEvent.copyInto idx number_elements_offset data.length, GLEvent.bindRegion idx], true)
  else
    (b1, GLEvent.advanceIndex idx :: w.1, false)

/-- `Buffer::write_data` (buffer.rs lines 76-79): `write_data_offset` at offset 0. -/
def Buffer.write_data {α : Type} (b : Buffer α) (data : List α) (timeout : Nat)
    (sizeT : Nat) (env : Nat → WaitStatus) : Buffer α × List GLEvent × Bool :=
  b.write_data_offset data timeout 0 sizeT env

/-- `Buffer::write_data_no_wait_no_binding` (buffer.rs lines 106-113): copies
into the currently bound region at element offset `offset_bytes / sizeT`
without rotating, waiting or rebinding. -/
def Buffer.write_data_no_wait_no_binding {α : Type} (b : Buffer α) (data : List α)
    (offset_bytes : Nat) (sizeT : Nat) : Buffer α × List GLEvent :=
  let number_elements_offset := offset_bytes / sizeT
  let newRegion := writeRegion (b.regions.getD b.current_buffer_index (fun _ => none))
    number_elements_offset data
  ({ b with regions := b.regions.set b.current_buffer_index newRegion },
   [GLEvent.copyInto b.current_buffer_index number_elements_offset data.length])

/-- `Buffer::update_fence` (buffer.rs lines 117-124): deletes the current
region's fence and installs a freshly created one.  Only the current slot of
`fences` changes. -/
def Buffer.update_fence {α : Type} (b : Buffer α) : Buffer α × List GLEvent :=
  let old := b.fences.getD b.current_buffer_index 0
  let fresh := b.next_fence_id
  ({ b with fences := b.fences.set b.current_buffer_index fresh,
            next_fence_id := fresh + 1 },
   [GLEvent.deleteSync old, GLEvent.fenceSync fresh])

/-- Test driver: perform `n` consecutive `write_data` calls, recording the
region index visited by (i.e. written and bound by) each call, in order.
`env k` is the oracle for the k-th call.  Used to state the round-robin
claims; each call is exactly `Buffer.write_data`. -/
def write_data_iter {α : Type} (b : Buffer α) (data : List α) (timeout : Nat)
    (sizeT : Nat) (env : Nat → Nat → WaitStatus) : Nat → Buffer α × List Nat
  | 0 => (b, [])
  | n + 1 =>
    let p := write_data_iter b data timeout sizeT env n
    let w := Buffer.write_data p.1 data timeout sizeT (env n)
    (w.1, p.2 ++ [w.1.current_buffer_index])

/-- Test driver: `n` consecutive `write_data_no_wait_no_binding` calls. -/
def nwnb_iter {α : Type} (b : Buffer α) (data : List α) (offset_bytes : Nat)
    (sizeT : Nat) : Nat → Buffer α
  | 0 => b
  | n + 1 => ((nwnb_iter b data offset_bytes sizeT n).write_data_no_wait_no_binding
      data offset_bytes sizeT).1

/-- Test driver: `n` consecutive `update_fence` calls with no intervening write. -/
def update_fence_iter {α : Type} (b : Buffer α) : Nat → Buffer α
  | 0 => b
  | n + 1 => (update_fence_iter b n).update_fence.1

/-! ## Scene renderer instance-upload path (`scene_renderer.rs`) -/

/-- `size_of::<TVec3<f32>>()`: three 4-byte floats. -/
def sizeTVec3 : Nat := 12

/-- `DrawCallInfo` from `draw_functions.rs` as mutated by the scene renderer:
`instance_offset`/`instance_count` are rewritten on every instance upload. -/
structure DrawCallInfo where
  indice_offset : Nat
  indice_count : Int
  instance_offset : Nat
  instance_count : Int
  vertex_offset : Int
  vertex_count : Int
deriving DecidableEq, Repr

instance : Inhabited DrawCallInfo := ⟨⟨0, 0, 0, 0, 0, 0⟩⟩

/-- `UploadInformation` from `scene_renderer.rs`: per-model instance update
record (`model_id.id` inlined as a `Nat`). -/
structure UploadInformation (α : Type) where
  model_id : Nat
  instance_translations : Option (List α)
  instance_colours : Option (List α)

/-- Renderer-level observable events: buffer events tagged with the instance
buffer they belong to, plus the clipping notice printed by the
`eprintln!("Not enough VRam reserved to upload {} instances. Uploading: {}", ..)`
lines of `upload_instance_information`. -/
inductive REvent
  | translations (e : GLEvent)
  | colours (e : GLEvent)
  | clipNotice (requested : Nat) (uploaded : Nat)
deriving DecidableEq, Repr

/-- The fields of `SceneRenderer` that participate in the instance-upload
path.  `grid_translations`/`grid_colours` stand for `grid.get_translations()`
and `grid.get_colours()` (fixed at construction). -/
structure SceneRenderer (α : Type) where
  grid_translations : List α
  grid_colours : List α
  instanced_translations : Buffer α
  instanced_colours : Buffer α
  base_number_instances : Nat
  current_instance_upload_index : Nat
  max_number_instances : Nat
  model_render_info : List DrawCallInfo

/-- State threaded through the `for x in info` loop of
`upload_instance_information`. `k` counts `write_data_offset` calls made so
far in the enclosing upload (the oracle index); `ok` is false once a fatal
wait has exited the process. -/
structure LoopState (α : Type) where
  tb : Buffer α
  cb : Buffer α
  mri : List DrawCallInfo
  current : Nat
  k : Nat
  ok : Bool

/-- The requested instance count of one update record: the `match` at
scene_renderer.rs lines 289-295 (`none` means both fields absent, i.e. the
`continue` branch). -/
def requestedInstances {α : Type} (x : UploadInformation α) : Option Nat :=
  match x.instance_translations, x.instance_colours with
  | some i, some _ => some i.length
  | some i, none => some i.length
  | none, some j => some j.length
  | none, none => none

/-- One iteration of the `for x in info` loop of
`SceneRenderer::upload_instance_information` (scene_renderer.rs lines
285-323): determine the requested count (skip when both fields are absent),
clip against capacity, record offset/count in the model's `DrawCallInfo`,
write colours then translations at the running offset, and advance the
running offset by the clipped amount.  `maxN` is `max_number_instances`. -/
def upload_record {α : Type} (env : Nat → Nat → WaitStatus) (timeout : Nat) (maxN : Nat)
    (x : UploadInformation α) (st : LoopState α) : LoopState α × List REvent :=
  match requestedInstances x with
  | none => (st, [])
  | some num_instances =>
    let clipped := st.current + num_instances > maxN
    let max_upload_amount := if clipped then maxN - st.current else num_instances
    let clipE : List REvent :=
      if clipped then [REvent.clipNotice num_instances (maxN - st.current)] else []
    let entry := st.mri.getD x.model_id default
    let mri' := st.mri.set x.model_id
      { entry with instance_count := (max_upload_amount : Int),
                   instance_offset := st.current }
    let bytes_offset := st.current * sizeTVec3
    -- colours write (scene_renderer.rs lines 312-315)
    let cstep : Buffer α × List REvent × Nat × Bool :=
      match x.instance_colours with
      | some colours =>
        let w := st.cb.write_data_offset colours timeout bytes_offset sizeTVec3 (env st.k)
        (w.1, w.2.1.map REvent.colours, st.k + 1, w.2.2)
      | none => (st.cb, [], st.k, true)
    if cstep.2.2.2 = false then
      ({ st with cb := cstep.1, mri := mri', k := cstep.2.2.1, ok := false },
       clipE ++ cstep.2.1)
    else
      -- translations write (scene_renderer.rs lines 317-320)
      let tstep : Buffer α × List REvent × Nat × Bool :=
        match x.instance_translations with
        | some translations =>
          let w := st.tb.write_data_offset translations timeout bytes_offset sizeTVec3
            (env cstep.2.2.1)
          (w.1, w.2.1.map REvent.translations, cstep.2.2.1 + 1, w.2.2)
        | none => (st.tb, [], cstep.2.2.1, true)
      if tstep.2.2.2 = false then
        ({ st with tb := tstep.1, cb := cstep.1, mri := mri', k := tstep.2.2.1, ok := false },
         clipE ++ cstep.2.1 ++ tstep.2.1)
      else
        ({ tb := tstep.1, cb := cstep.1, mri := mri',
           current := st.current + max_upload_amount, k := tstep.2.2.1, ok := true },
         clipE ++ cstep.2.1 ++ tstep.2.1)

/-- The `for x in info` loop of `SceneRenderer::upload_instance_information`.
Once a write exits the process (`ok = false`), no further records are
processed (the real process has terminated inside the failing write). -/
def upload_loop {α : Type} (env : Nat → Nat → WaitStatus) (timeout : Nat) (maxN : Nat) :
    List (UploadInformation α) → LoopState α → LoopState α × List REvent
  | [], st => (st, [])
  | x :: rest, st =>
    let step := upload_record env timeout maxN x st
    if step.1.ok = true then
      let res := upload_loop env timeout maxN rest step.1
      (res.1, step.2 ++ res.2)
    else step

/-- `SceneRenderer::upload_instance_information` (scene_renderer.rs lines
263-324): resets the upload index to `base_number_instances`, uploads the grid
overlay's colours and translations at that reserved offset (clipping against
capacity), then processes each per-model record via `upload_loop`.  Returns
the updated renderer, the events issued in order, and `false` when a fatal
fence wait exited the process. -/
def upload_instance_information {α : Type} (r : SceneRenderer α)
    (info : List (UploadInformation α)) (env : Nat → Nat → WaitStatus) :
    SceneRenderer α × List REvent × Bool :=
  let timeout := 5000000
  let current0 := r.base_number_instances
  let num_instances := r.grid_translations.length
  let clipped := current0 + num_instances > r.max_number_instances
  let max_upload_amount :=
    if clipped then r.max_number_instances - current0 else num_instances
  let clipE : List REvent :=
    if clipped then [REvent.clipNotice num_instances (r.max_number_instances - current0)]
    else []
  let bytes_offset := current0 * sizeTVec3
  let cw := r.instanced_colours.write_data_offset r.grid_colours timeout bytes_offset
    sizeTVec3 (env 0)
  if cw.2.2 = false then
    ({ r with instanced_colours := cw.1, current_instance_upload_index := current0 },
     clipE ++ cw.2.1.map REvent.colours, false)
  else
    let tw := r.instanced_translations.write_data_offset r.grid_translations timeout
      bytes_offset sizeTVec3 (env 1)
    if tw.2.2 = false then
      ({ r with instanced_colours := cw.1, instanced_translations := tw.1,
                current_instance_upload_index := current0 },
       clipE ++ cw.2.1.map REvent.colours ++ tw.2.1.map REvent.translations, false)
    else
      let st0 : LoopState α :=
        { tb := tw.1, cb := cw.1, mri := r.model_render_info,
          current := current0 + max_upload_amount, k := 2, ok := true }
      let res := upload_loop env timeout r.max_number_instances info st0
      ({ r with instanced_translations := res.1.tb, instanced_colours := res.1.cb,
                model_render_info := res.1.mri,
                current_instance_upload_index := res.1.current },
       clipE ++ cw.2.1.map REvent.colours ++ tw.2.1.map REvent.translations ++ res.2,
       res.1.ok)

/-! ### Trace projections -/

/-- The untagged buffer events of the translations instance buffer. -/
def tEvents : List REvent → List GLEvent :=
  List.filterMap fun e => match e with
    | REvent.translations g => some g
    | _ => none

/-- The untagged buffer events of the colours instance buffer. -/
def cEvents : List REvent → List GLEvent :=
  List.filterMap fun e => match e with
    | REvent.colours g => some g
    | _ => none

/-- Number of `current_buffer_index` rotations in a buffer event trace. -/
def advCount (evts : List GLEvent) : Nat :=
  (evts.filter fun e => match e with
    | GLEvent.advanceIndex _ => true
    | _ => false).length

/-- The `(region, elementOffset, elementCount)` descriptors of the host-side
copies in a buffer event trace, in order. -/
def copyDescs (evts : List GLEvent) : List (Nat × Nat × Nat) :=
  evts.filterMap fun e => match e with
    | GLEvent.copyInto r o l => some (r, o, l)
    | _ => none

/-- Copy descriptors of a renderer trace, tagged with the instance buffer
(`true` = translations, `false` = colours). -/
def rCopyDescs (evts : List REvent) : List (Bool × Nat × Nat × Nat) :=
  evts.filterMap fun e => match e with
    | REvent.translations (GLEvent.copyInto r o l) => some (true, r, o, l)
    | REvent.colours (GLEvent.copyInto r o l) => some (false, r, o, l)
    | _ => none

/-- Requested translation count of a record (0 when absent). -/
def transLen {α : Type} (u : UploadInformation α) : Nat :=
  match u.instance_translations with
  | some i => i.length
  | none => 0

/-- Requested colour count of a record (0 when absent). -/
def colourLen {α : Type} (u : UploadInformation α) : Nat :=
  match u.instance_colours with
  | some j => j.length
  | none => 0

/-- Expected per-model copy descriptors for a clip-free batch on a
single-region buffer: each record copies `len` elements into region 0 at the
running offset and advances it by `amt`. -/
def expectedCopies : Nat → List (Nat × Nat) → List (Nat × Nat × Nat)
  | _, [] => []
  | cur, (amt, len) :: rest => (0, cur, len) :: expectedCopies (cur + amt) rest

/-! ### Concrete fixtures for counterexamples and witnesses -/

/-- A driver that always answers `ALREADY_SIGNALED` (single-write oracle). -/
def envAll : Nat → WaitStatus := fun _ => WaitStatus.alreadySignaled

/-- A driver that always answers `ALREADY_SIGNALED` (batched oracle). -/
def envAllOk : Nat → Nat → WaitStatus := fun _ _ => WaitStatus.alreadySignaled

/-- A driver on which every wait times out. -/
def envAllFail : Nat → WaitStatus := fun _ => WaitStatus.timeoutExpired

/-- A freshly constructed two-region buffer (48 bytes per region, the
end-to-end scenario of the spec). -/
def bufFix : Buffer Nat := (Buffer.new Nat 48 2 (BufferType.array 4 12)).1

/-- A scene renderer with a 3-instance grid overlay reserved at offset 3 and
three models, as in the batch-rotation scenario. -/
def rBatch : SceneRenderer Nat :=
  { grid_translations := [100, 101, 102]
    grid_colours := [200, 201, 202]
    instanced_translations := (Buffer.new Nat (12 * 50) 1 (BufferType.array 4 12)).1
    instanced_colours := (Buffer.new Nat (12 * 50) 1 (BufferType.array 3 12)).1
    base_number_instances := 3
    current_instance_upload_index := 3
    max_number_instances := 50
    model_render_info := [default, default, default] }

/-- A batch updating three distinct models, each with translations and colours. -/
def infoBatch : List (UploadInformation Nat) :=
  [⟨0, some [1, 2], some [11, 12]⟩,
   ⟨1, some [3], some [13]⟩,
   ⟨2, some [4, 5, 6], some [14, 15, 16]⟩]

/-- A scene renderer with capacity 10 and a 3-instance grid overlay: the
clipping scenario of the spec. -/
def rCap : SceneRenderer Nat :=
  { grid_translations := [100, 101, 102]
    grid_colours := [200, 201, 202]
    instanced_translations := (Buffer.new Nat (12 * 10) 1 (BufferType.array 4 12)).1
    instanced_colours := (Buffer.new Nat (12 * 10) 1 (BufferType.array 3 12)).1
    base_number_instances := 0
    current_instance_upload_index := 0
    max_number_instances := 10
    model_render_info := [default] }

/-- A batch requesting 12 instances against the remaining capacity of 7. -/
def infoCap : List (UploadInformation Nat) :=
  [⟨0, some [1, 2, 3, 4, 5, 6, 7, 8, 9, 10, 11, 12],
       some [1, 2, 3, 4, 5, 6, 7, 8, 9, 10, 11, 12]⟩]


/-! ## Cluster colour mapping (`cluster_colour.rs`, `ipc_content_logic.rs`)

Colour components are `f32` literals; every literal involved in the claims
(1.0, 0.75, 0.5) is exactly representable, so colours are modelled as rational
triples.  The palette contents (built by a float loop in `ClusterColour::new`)
are left abstract: the claims depend only on `get_colour`'s dispatch. -/

/-- A `TVec3<f32>` colour value, with exactly-representable components. -/
structure Vec3q where
  x : ℚ
  y : ℚ
  z : ℚ
deriving DecidableEq, Repr

/-- `ClusterColour` from `cluster_colour.rs`: the precomputed palette. -/
structure ClusterColour where
  colours : List Vec3q

/-- The fixed out-of-range colour `vec3(1.0, 0.75, 0.5)` returned by
`ClusterColour::get_colour`. -/
def fallbackColour : Vec3q := ⟨1, 3/4, 1/2⟩

/-- `ClusterColour::get_colour` (cluster_colour.rs lines 44-54). -/
def ClusterColour.get_colour (c : ClusterColour) (cluster_index : Nat) : Vec3q :=
  if cluster_index ≥ c.colours.length then fallbackColour
  else c.colours.getD cluster_index ⟨0, 0, 0⟩

/-- Rust `as usize` on an `isize` value: reduction modulo 2^64 (also absorbs
the wrapping `cluster_index + 1` addition, which is likewise mod 2^64). -/
def usizeOfInt (i : Int) : Nat := (i % (2 ^ 64 : Int)).toNat

/-- Rust `str::split_whitespace` on a character list: maximal non-whitespace
runs, empties discarded.  `cur` accumulates the current token reversed. -/
def splitWsAux : List Char → List Char → List (List Char)
  | [], cur => if cur.isEmpty then [] else [cur.reverse]
  | ch :: rest, cur =>
    if ch.isWhitespace then
      if cur.isEmpty then splitWsAux rest []
      else cur.reverse :: splitWsAux rest []
    else splitWsAux rest (ch :: cur)

/-- The whitespace-delimited tokens of the cluster output file contents
(`file_contents.split_whitespace()` at ipc_content_logic.rs line 177). -/
def clusterTokens (file_contents : String) : List String :=
  (splitWsAux file_contents.toList []).map fun l => String.mk l

/-- The cluster index parsed from one token (ipc_content_logic.rs lines
179-190): `isize::from_str`, falling back to `-1` on a parse failure.
`parse` abstracts `isize::from_str` (a standard-library collaborator). -/
def clusterIndexOfToken (parse : String → Option Int) (x : String) : Int :=
  (parse x).getD (-1)

/-- The colour pushed for one token (ipc_content_logic.rs line 191):
`CLUSTER_COLOUR.get_colour((cluster_index + 1) as usize)`. -/
def colourForIndex (c : ClusterColour) (i : Int) : Vec3q :=
  c.get_colour (usizeOfInt (i + 1))

/-- The colour-building loop of `read_cluster_output_file`
(ipc_content_logic.rs lines 175-194), after the file contents have been read:
one colour per whitespace-delimited token. -/
def read_cluster_output (c : ClusterColour) (parse : String → Option Int)
    (file_contents : String) : List Vec3q :=
  (clusterTokens file_contents).map fun x =>
    colourForIndex c (clusterIndexOfToken parse x)

/-! ## IPC point parser (`ipc_receiver.rs`)

`f32::from_str` is a standard-library collaborator abstracted as a `parse`
parameter; the parser's structure (splitting, trailing-token pop, rounding,
component swap, first-error propagation) is translated from the source.  The
`eprintln!` notice for an incomplete final vertex is returned as the second
component (the stderr trace). -/

/-- A parsed `TVec3<f32>` point. -/
structure Vec3 (α : Type) where
  x : α
  y : α
  z : α
deriving DecidableEq, Repr

/-- Rust `str::split` on the `"|"` separator, on a character list: `n`
separators yield `n + 1` pieces, empties included. -/
def splitBarAux : List Char → List Char → List (List Char)
  | [], cur => [cur.reverse]
  | ch :: rest, cur =>
    if ch = '|' then cur.reverse :: splitBarAux rest []
    else splitBarAux rest (ch :: cur)

/-- `read_content.split("|")` as a list of string tokens. -/
def splitBar (s : String) : List String :=
  (splitBarAux s.toList []).map fun l => String.mk l

/-- `IPCContributor::round_number_down` (ipc_receiver.rs lines 176-190). -/
def round_number_down (number_to_round : Nat) (multiple : Nat) : Nat :=
  if multiple = 0 then number_to_round
  else
    let remainder := number_to_round % multiple
    if remainder = 0 then number_to_round
    else (number_to_round + multiple - remainder) - multiple

/-- The `handle_parsing` closure of `parse_read_data` (ipc_receiver.rs lines
124-135): wraps a parse failure in the formatted error message. -/
def handle_parsing {α : Type} (parse : String → Except String α)
    (vertex_number : Nat) (number : String) : Except String α :=
  match parse number with
  | Except.ok i => Except.ok i
  | Except.error err => Except.error
      ("Failed to parse vertex number " ++ toString vertex_number ++ " having value "
        ++ number ++ ". Error: " ++ err)

/-- One iteration of the vertex loop (ipc_receiver.rs lines 160-167): parses
tokens `3v`, `3v+1`, `3v+2` and builds `vec3(x_coord, z_coord, y_coord)` —
the second and third file components land in `z` and `y` respectively. -/
def parse_vertex {α : Type} (parse : String → Except String α)
    (tokens : List String) (v : Nat) : Except String (Vec3 α) := do
  let x_coord ← handle_parsing parse v (tokens.getD (v * 3) "")
  let y_coord ← handle_parsing parse v (tokens.getD (v * 3 + 1) "")
  let z_coord ← handle_parsing parse v (tokens.getD (v * 3 + 2) "")
  return ⟨x_coord, z_coord, y_coord⟩

/-- The first `n` iterations of the vertex loop, in order, with the loop's
first-error-aborts semantics. -/
def parse_vertices {α : Type} (parse : String → Except String α)
    (tokens : List String) : Nat → Except String (List (Vec3 α))
  | 0 => Except.ok []
  | n + 1 => do
    let pre ← parse_vertices parse tokens n
    let vtx ← parse_vertex parse tokens n
    return pre ++ [vtx]

/-- The token list of `parse_read_data` after the conditional trailing pop
(ipc_receiver.rs lines 139-149): drop one trailing token equal to the
separator or empty. -/
def parseTokens (read_content : String) : List String :=
  let split_content := splitBar read_content
  match split_content.getLast? with
  | some last =>
    if last = "|" ∨ last = "" then split_content.dropLast else split_content
  | none => split_content

/-- `IPCContributor::parse_read_data` (ipc_receiver.rs lines 122-170).  The
second component is the stderr trace: the incomplete-last-vertex notice when
the token count is not a multiple of three. -/
def parse_read_data {α : Type} (parse : String → Except String α)
    (read_content : String) : Except String (List (Vec3 α)) × List String :=
  let split_content := parseTokens read_content
  let number_vertices := round_number_down split_content.length 3
  let notices : List String :=
    if number_vertices ≠ split_content.length then
      ["Incomplete last vertex, did not receive three components to form a vertex. New vertex count: "
        ++ toString number_vertices]
    else []
  (parse_vertices parse split_content (number_vertices / 3), notices)

/-- Palette with two colours, for cluster-colour witnesses. -/
def paletteFix : ClusterColour := ⟨[⟨0, 7/10, 0⟩, ⟨7/10, 0, 0⟩]⟩

/-- Integer parser recognising the tokens used in the cluster witness. -/
def parseFix : String → Option Int := fun s =>
  if s = "0" then some 0 else if s = "7" then some 7 else none

/-! ## Helper lemmas -/

theorem wait_for_buffer_copyDescs (fence timeout : Nat) (env : Nat → WaitStatus) :
    copyDescs (wait_for_buffer fence timeout env).1 = [] := by
  simp only [wait_for_buffer]
  split_ifs <;> rfl

theorem wait_for_buffer_advCount (fence timeout : Nat) (env : Nat → WaitStatus) :
    advCount (wait_for_buffer fence timeout env).1 = 0 := by
  simp only [wait_for_buffer]
  split_ifs <;> rfl

theorem advCount_append (a b : List GLEvent) :
    advCount (a ++ b) = advCount a + advCount b := by
  simp [advCount, List.filter_append]

theorem advCount_cons_adv (i : Nat) (l : List GLEvent) :
    advCount (GLEvent.advanceIndex i :: l) = 1 + advCount l := by
  simp [advCount, List.filter_cons, Nat.add_comm]

theorem copyDescs_append (a b : List GLEvent) :
    copyDescs (a ++ b) = copyDescs a ++ copyDescs b :=
  List.filterMap_append a b _

/-- Full characterization of `write_data_offset` by the wait outcome. -/
theorem write_data_offset_spec {α : Type} (b : Buffer α) (data : List α)
    (timeout offset_bytes sizeT : Nat) (env : Nat → WaitStatus) :
    ((wait_for_buffer (b.fences.getD ((b.current_buffer_index + 1) % b.number_buffers) 0)
        timeout env).2 = true →
      b.write_data_offset data timeout offset_bytes sizeT env =
        ({ b with
            current_buffer_index := (b.current_buffer_index + 1) % b.number_buffers,
            regions := b.regions.set ((b.current_buffer_index + 1) % b.number_buffers)
              (writeRegion (b.regions.getD ((b.current_buffer_index + 1) % b.number_buffers)
                  (fun _ => none)) (offset_bytes / sizeT) data) },
         GLEvent.advanceIndex ((b.current_buffer_index + 1) % b.number_buffers) ::
           (wait_for_buffer (b.fences.getD ((b.current_buffer_index + 1) % b.number_buffers) 0)
             timeout env).1 ++
           [GLEvent.copyInto ((b.current_buffer_index + 1) % b.number_buffers)
              (offset_bytes / sizeT) data.length,
            GLEvent.bindRegion ((b.current_buffer_index + 1) % b.number_buffers)],
         true))
    ∧ ((wait_for_buffer (b.fences.getD ((b.current_buffer_index + 1) % b.number_buffers) 0)
        timeout env).2 = false →
      b.write_data_offset data timeout offset_bytes sizeT env =
        ({ b with current_buffer_index := (b.current_buffer_index + 1) % b.number_buffers },
         GLEvent.advanceIndex ((b.current_buffer_index + 1) % b.number_buffers) ::
           (wait_for_buffer (b.fences.getD ((b.current_buffer_index + 1) % b.number_buffers) 0)
             timeout env).1,
         false)) := by
  constructor <;> intro h <;>
    simp only [List.getD_eq_getElem?_getD] at h <;>
    simp [Buffer.write_data_offset, h]

theorem write_data_offset_index {α : Type} (b : Buffer α) (data : List α)
    (timeout offset_bytes sizeT : Nat) (env : Nat → WaitStatus) :
    (b.write_data_offset data timeout offset_bytes sizeT env).1.current_buffer_index =
      (b.current_buffer_index + 1) % b.number_buffers := by
  rcases hw : (wait_for_buffer (b.fences.getD ((b.current_buffer_index + 1) % b.number_buffers) 0)
      timeout env).2 with _ | _
  · rw [(write_data_offset_spec b data timeout offset_bytes sizeT env).2 hw]
  · rw [(write_data_offset_spec b data timeout offset_bytes sizeT env).1 hw]

theorem write_data_offset_number_buffers {α : Type} (b : Buffer α) (data : List α)
    (timeout offset_bytes sizeT : Nat) (env : Nat → WaitStatus) :
    (b.write_data_offset data timeout offset_bytes sizeT env).1.number_buffers =
      b.number_buffers := by
  rcases hw : (wait_for_buffer (b.fences.getD ((b.current_buffer_index + 1) % b.number_buffers) 0)
      timeout env).2 with _ | _
  · rw [(write_data_offset_spec b data timeout offset_bytes sizeT env).2 hw]
  · rw [(write_data_offset_spec b data timeout offset_bytes sizeT env).1 hw]

theorem write_data_offset_fences {α : Type} (b : Buffer α) (data : List α)
    (timeout offset_bytes sizeT : Nat) (env : Nat → WaitStatus) :
    (b.write_data_offset data timeout offset_bytes sizeT env).1.fences = b.fences := by
  rcases hw : (wait_for_buffer (b.fences.getD ((b.current_buffer_index + 1) % b.number_buffers) 0)
      timeout env).2 with _ | _
  · rw [(write_data_offset_spec b data timeout offset_bytes sizeT env).2 hw]
  · rw [(write_data_offset_spec b data timeout offset_bytes sizeT env).1 hw]

theorem write_data_offset_copyDescs {α : Type} (b : Buffer α) (data : List α)
    (timeout offset_bytes sizeT : Nat) (env : Nat → WaitStatus) :
    copyDescs (b.write_data_offset data timeout offset_bytes sizeT env).2.1 =
      if (b.write_data_offset data timeout offset_bytes sizeT env).2.2 then
        [((b.current_buffer_index + 1) % b.number_buffers, offset_bytes / sizeT, data.length)]
      else [] := by
  rcases hw : (wait_for_buffer (b.fences.getD ((b.current_buffer_index + 1) % b.number_buffers) 0)
      timeout env).2 with _ | _
  · rw [(write_data_offset_spec b data timeout offset_bytes sizeT env).2 hw]
    simp only [copyDescs, List.filterMap_cons, if_neg (Bool.false_ne_true)]
    exact wait_for_buffer_copyDescs _ _ _
  · rw [(write_data_offset_spec b data timeout offset_bytes sizeT env).1 hw]
    simp only [copyDescs, List.filterMap_cons, List.filterMap_append, if_pos rfl]
    rw [show List.filterMap _ (wait_for_buffer (b.fences.getD
        ((b.current_buffer_index + 1) % b.number_buffers) 0) timeout env).1 =
      copyDescs (wait_for_buffer (b.fences.getD
        ((b.current_buffer_index + 1) % b.number_buffers) 0) timeout env).1 from rfl]
    rw [wait_for_buffer_copyDescs]
    rfl

theorem write_data_offset_advCount {α : Type} (b : Buffer α) (data : List α)
    (timeout offset_bytes sizeT : Nat) (env : Nat → WaitStatus) :
    advCount (b.write_data_offset data timeout offset_bytes sizeT env).2.1 = 1 := by
  rcases hw : (wait_for_buffer (b.fences.getD ((b.current_buffer_index + 1) % b.number_buffers) 0)
      timeout env).2 with _ | _
  · rw [(write_data_offset_spec b data timeout offset_bytes sizeT env).2 hw]
    show advCount (GLEvent.advanceIndex _ :: _) = 1
    rw [advCount_cons_adv, wait_for_buffer_advCount]
  · rw [(write_data_offset_spec b data timeout offset_bytes sizeT env).1 hw]
    show advCount (GLEvent.advanceIndex _ :: (_ ++ _)) = 1
    rw [advCount_cons_adv, advCount_append, wait_for_buffer_advCount]
    rfl

theorem write_data_offset_regions_fail {α : Type} (b : Buffer α) (data : List α)
    (timeout offset_bytes sizeT : Nat) (env : Nat → WaitStatus)
    (h : (b.write_data_offset data timeout offset_bytes sizeT env).2.2 = false) :
    (b.write_data_offset data timeout offset_bytes sizeT env).1.regions = b.regions := by
  rcases hw : (wait_for_buffer (b.fences.getD ((b.current_buffer_index + 1) % b.number_buffers) 0)
      timeout env).2 with _ | _
  · rw [(write_data_offset_spec b data timeout offset_bytes sizeT env).2 hw]
  · rw [(write_data_offset_spec b data timeout offset_bytes sizeT env).1 hw] at h
    simp at h

theorem tEvents_append (a b : List REvent) : tEvents (a ++ b) = tEvents a ++ tEvents b :=
  List.filterMap_append a b _

theorem cEvents_append (a b : List REvent) : cEvents (a ++ b) = cEvents a ++ cEvents b :=
  List.filterMap_append a b _

theorem tEvents_map_translations (l : List GLEvent) :
    tEvents (l.map REvent.translations) = l := by
  induction l with
  | nil => rfl
  | cons e t ih => simp [tEvents, List.filterMap_cons] at ih ⊢; exact ih

theorem tEvents_map_colours (l : List GLEvent) :
    tEvents (l.map REvent.colours) = [] := by
  induction l with
  | nil => rfl
  | cons e t ih => simp [tEvents, List.filterMap_cons, ih]

theorem cEvents_map_colours (l : List GLEvent) :
    cEvents (l.map REvent.colours) = l := by
  induction l with
  | nil => rfl
  | cons e t ih => simp [cEvents, List.filterMap_cons] at ih ⊢; exact ih

theorem cEvents_map_translations (l : List GLEvent) :
    cEvents (l.map REvent.translations) = [] := by
  induction l with
  | nil => rfl
  | cons e t ih => simp [cEvents, List.filterMap_cons, ih]

theorem rCopyDescs_append (a b : List REvent) :
    rCopyDescs (a ++ b) = rCopyDescs a ++ rCopyDescs b :=
  List.filterMap_append a b _

theorem rCopyDescs_map_translations (l : List GLEvent) :
    rCopyDescs (l.map REvent.translations) =
      (copyDescs l).map fun d => (true, d) := by
  induction l with
  | nil => rfl
  | cons e t ih =>
    cases e <;> simp [rCopyDescs, copyDescs, List.filterMap_cons] at ih ⊢ <;> exact ih

theorem rCopyDescs_map_colours (l : List GLEvent) :
    rCopyDescs (l.map REvent.colours) =
      (copyDescs l).map fun d => (false, d) := by
  induction l with
  | nil => rfl
  | cons e t ih =>
    cases e <;> simp [rCopyDescs, copyDescs, List.filterMap_cons] at ih ⊢ <;> exact ih

/-- State of `write_data_iter` on a freshly constructed buffer: after `n`
calls the index is `n % N`, the region count is preserved, and the k-th call
(1-based) visited region `k % N`. -/
theorem write_data_iter_fresh {α : Type} (data : List α) (sz timeout sizeT : Nat)
    (bt : BufferType) (N : Nat) (env : Nat → Nat → WaitStatus) (n : Nat) :
    (write_data_iter (Buffer.new α sz N bt).1 data timeout sizeT env n).1.current_buffer_index
        = n % N ∧
    (write_data_iter (Buffer.new α sz N bt).1 data timeout sizeT env n).1.number_buffers = N ∧
    (write_data_iter (Buffer.new α sz N bt).1 data timeout sizeT env n).2 =
      (List.range n).map fun k => (k + 1) % N := by
  induction n with
  | zero => exact ⟨Nat.zero_mod N, rfl, rfl⟩
  | succ m ih =>
    obtain ⟨hidx, hnb, hvis⟩ := ih
    have hidx' : (write_data_iter (Buffer.new α sz N bt).1 data timeout sizeT env (m + 1)).1.current_buffer_index
        = (m + 1) % N := by
      show (Buffer.write_data _ data timeout sizeT (env m)).1.current_buffer_index = _
      rw [Buffer.write_data, write_data_offset_index, hidx, hnb, Nat.mod_add_mod]
    refine ⟨hidx', ?_, ?_⟩
    · show (Buffer.write_data _ data timeout sizeT (env m)).1.number_buffers = N
      rw [Buffer.write_data, write_data_offset_number_buffers, hnb]
    · show (write_data_iter _ data timeout sizeT env m).2 ++
        [(Buffer.write_data _ data timeout sizeT (env m)).1.current_buffer_index] = _
      rw [hvis, List.range_succ, List.map_append]
      congr 1
      simpa using hidx'

/-- A record whose overall loop step succeeded had both its writes succeed. -/
theorem upload_record_both_ok {α : Type} (env : Nat → Nat → WaitStatus)
    (timeout maxN : Nat) (x : UploadInformation α) (st : LoopState α)
    (ts cs : List α) (hxt : x.instance_translations = some ts)
    (hxc : x.instance_colours = some cs) (hnc : ¬ maxN < st.current + ts.length)
    (hok : (upload_record env timeout maxN x st).1.ok = true) :
    (st.cb.write_data_offset cs timeout (st.current * sizeTVec3) sizeTVec3
      (env st.k)).2.2 = true ∧
    (st.tb.write_data_offset ts timeout (st.current * sizeTVec3) sizeTVec3
      (env (st.k + 1))).2.2 = true := by
  have hreq : requestedInstances x = some ts.length := by
    simp [requestedInstances, hxt, hxc]
  rcases hc : (st.cb.write_data_offset cs timeout (st.current * sizeTVec3) sizeTVec3
      (env st.k)).2.2 with _ | _
  · exfalso
    rw [upload_record, hreq] at hok
    simp only [hxt, hxc, gt_iff_lt, if_neg hnc, hc] at hok
    simp at hok
  · rcases ht : (st.tb.write_data_offset ts timeout (st.current * sizeTVec3) sizeTVec3
        (env (st.k + 1))).2.2 with _ | _
    · exfalso
      rw [upload_record, hreq] at hok
      simp only [hxt, hxc, gt_iff_lt, if_neg hnc, hc, ht] at hok
      simp at hok
    · exact ⟨rfl, rfl⟩

/-- `upload_record` on a clip-free record supplying both lists, when both
writes succeed. -/
theorem upload_record_success {α : Type} (env : Nat → Nat → WaitStatus)
    (timeout maxN : Nat) (x : UploadInformation α) (st : LoopState α)
    (ts cs : List α) (hxt : x.instance_translations = some ts)
    (hxc : x.instance_colours = some cs) (hnc : ¬ maxN < st.current + ts.length)
    (hc : (st.cb.write_data_offset cs timeout (st.current * sizeTVec3) sizeTVec3
      (env st.k)).2.2 = true)
    (ht : (st.tb.write_data_offset ts timeout (st.current * sizeTVec3) sizeTVec3
      (env (st.k + 1))).2.2 = true) :
    upload_record env timeout maxN x st =
      ({ tb := (st.tb.write_data_offset ts timeout (st.current * sizeTVec3) sizeTVec3
            (env (st.k + 1))).1,
         cb := (st.cb.write_data_offset cs timeout (st.current * sizeTVec3) sizeTVec3
            (env st.k)).1,
         mri := st.mri.set x.model_id
           { st.mri.getD x.model_id default with
               instance_count := (ts.length : Int), instance_offset := st.current },
         current := st.current + ts.length, k := st.k + 1 + 1, ok := true },
       (st.cb.write_data_offset cs timeout (st.current * sizeTVec3) sizeTVec3
          (env st.k)).2.1.map REvent.colours ++
       (st.tb.write_data_offset ts timeout (st.current * sizeTVec3) sizeTVec3
          (env (st.k + 1))).2.1.map REvent.translations) := by
  have hreq : requestedInstances x = some ts.length := by
    simp [requestedInstances, hxt, hxc]
  rw [upload_record, hreq]
  simp only [hxt, hxc, gt_iff_lt, if_neg hnc, hc, ht]
  simp

/-- Batch invariant for the per-model loop on single-region instance buffers,
for clip-free batches in which every record supplies both lists: each record
rotates each buffer once (always back to region 0) and copies at the running
offset. -/
theorem upload_loop_clip_free {α : Type} (env : Nat → Nat → WaitStatus)
    (timeout maxN : Nat) (info : List (UploadInformation α)) :
    ∀ (st : LoopState α),
    st.tb.number_buffers = 1 → st.cb.number_buffers = 1 →
    st.tb.current_buffer_index = 0 → st.cb.current_buffer_index = 0 →
    (∀ u ∈ info, u.instance_translations.isSome = true ∧
      u.instance_colours.isSome = true) →
    st.current + (info.map transLen).sum ≤ maxN →
    (upload_loop env timeout maxN info st).1.ok = true →
    advCount (tEvents (upload_loop env timeout maxN info st).2) = info.length ∧
    advCount (cEvents (upload_loop env timeout maxN info st).2) = info.length ∧
    copyDescs (tEvents (upload_loop env timeout maxN info st).2) =
      expectedCopies st.current (info.map fun u => (transLen u, transLen u)) ∧
    copyDescs (cEvents (upload_loop env timeout maxN info st).2) =
      expectedCopies st.current (info.map fun u => (transLen u, colourLen u)) ∧
    (upload_loop env timeout maxN info st).1.tb.current_buffer_index = 0 ∧
    (upload_loop env timeout maxN info st).1.cb.current_buffer_index = 0 ∧
    (upload_loop env timeout maxN info st).1.current =
      st.current + (info.map transLen).sum := by
  induction info with
  | nil =>
    intro st _ _ hti hci _ _ _
    exact ⟨rfl, rfl, rfl, rfl, hti, hci, (Nat.add_zero st.current).symm⟩
  | cons x rest ih =>
    intro st htb hcb hti hci hsome hfit hok
    obtain ⟨hxts, hxcs⟩ := hsome x (List.mem_cons_self x rest)
    rcases hxt : x.instance_translations with _ | ts
    · rw [hxt] at hxts
      simp at hxts
    rcases hxc : x.instance_colours with _ | cs
    · rw [hxc] at hxcs
      simp at hxcs
    have htl : transLen x = ts.length := by simp [transLen, hxt]
    have hcl : colourLen x = cs.length := by simp [colourLen, hxc]
    have hsum : ((x :: rest).map transLen).sum = ts.length + (rest.map transLen).sum := by
      rw [List.map_cons, List.sum_cons, htl]
    have hnc : ¬ maxN < st.current + ts.length := by
      rw [hsum] at hfit
      omega
    -- the loop step succeeded, so both writes succeeded
    have hstep_ok : (upload_record env timeout maxN x st).1.ok = true := by
      by_contra hro'
      have hro : (upload_record env timeout maxN x st).1.ok = false := by
        rcases h : (upload_record env timeout maxN x st).1.ok with _ | _
        · rfl
        · exact absurd h hro'
      have hnot : ¬ ((upload_record env timeout maxN x st).1.ok = true) := by simp [hro]
      simp only [upload_loop] at hok
      rw [if_neg hnot, hro] at hok
      exact Bool.false_ne_true hok
    obtain ⟨hc, ht⟩ := upload_record_both_ok env timeout maxN x st ts cs hxt hxc hnc hstep_ok
    have hrec := upload_record_success env timeout maxN x st ts cs hxt hxc hnc hc ht
    -- name the two writes and the post-record state
    have hloop : upload_loop env timeout maxN (x :: rest) st =
        ((upload_loop env timeout maxN rest (upload_record env timeout maxN x st).1).1,
         (upload_record env timeout maxN x st).2 ++
           (upload_loop env timeout maxN rest (upload_record env timeout maxN x st).1).2) := by
      simp only [upload_loop]
      rw [if_pos hstep_ok]
    set cw := st.cb.write_data_offset cs timeout (st.current * sizeTVec3) sizeTVec3 (env st.k)
      with hcw_def
    set tw := st.tb.write_data_offset ts timeout (st.current * sizeTVec3) sizeTVec3
      (env (st.k + 1)) with htw_def
    have hnb_t : tw.1.number_buffers = 1 := by
      rw [htw_def, write_data_offset_number_buffers, htb]
    have hnb_c : cw.1.number_buffers = 1 := by
      rw [hcw_def, write_data_offset_number_buffers, hcb]
    have hix_t : tw.1.current_buffer_index = 0 := by
      rw [htw_def, write_data_offset_index, htb, Nat.mod_one]
    have hix_c : cw.1.current_buffer_index = 0 := by
      rw [hcw_def, write_data_offset_index, hcb, Nat.mod_one]
    have hdiv : st.current * sizeTVec3 / sizeTVec3 = st.current :=
      Nat.mul_div_cancel _ (by norm_num [sizeTVec3])
    have hcd_t : copyDescs tw.2.1 = [(0, st.current, ts.length)] := by
      rw [htw_def, write_data_offset_copyDescs, if_pos ht, htb, Nat.mod_one, hdiv]
    have hcd_c : copyDescs cw.2.1 = [(0, st.current, cs.length)] := by
      rw [hcw_def, write_data_offset_copyDescs, if_pos hc, hcb, Nat.mod_one, hdiv]
    have hadv_t : advCount tw.2.1 = 1 := by
      rw [htw_def, write_data_offset_advCount]
    have hadv_c : advCount cw.2.1 = 1 := by
      rw [hcw_def, write_data_offset_advCount]
    obtain ⟨ia, ib, ic, id, ie, if', ig⟩ :=
      ih (upload_record env timeout maxN x st).1
        (by rw [hrec]; exact hnb_t) (by rw [hrec]; exact hnb_c)
        (by rw [hrec]; exact hix_t) (by rw [hrec]; exact hix_c)
        (fun u hu => hsome u (List.mem_cons_of_mem x hu))
        (by rw [hrec]; show st.current + ts.length + (rest.map transLen).sum ≤ maxN
            rw [hsum] at hfit
            omega)
        (by rw [hloop] at hok; exact hok)
    have hcur : (upload_record env timeout maxN x st).1.current = st.current + ts.length := by
      rw [hrec]
    rw [hloop]
    have hevts : (upload_record env timeout maxN x st).2 =
        cw.2.1.map REvent.colours ++ tw.2.1.map REvent.translations := by
      rw [hrec]
    refine ⟨?_, ?_, ?_, ?_, ie, if', ?_⟩
    · show advCount (tEvents (_ ++ _)) = _
      rw [hevts, tEvents_append, tEvents_append, tEvents_map_colours,
        tEvents_map_translations, advCount_append, advCount_append, ia, hadv_t]
      simp only [advCount, List.filter_nil, List.length_nil, List.length_cons]
      omega
    · show advCount (cEvents (_ ++ _)) = _
      rw [hevts, cEvents_append, cEvents_append, cEvents_map_colours,
        cEvents_map_translations, advCount_append, advCount_append, ib, hadv_c]
      simp only [advCount, List.filter_nil, List.length_nil, List.length_cons]
      omega
    · show copyDescs (tEvents (_ ++ _)) = _
      rw [hevts, tEvents_append, tEvents_append, tEvents_map_colours,
        tEvents_map_translations, List.nil_append, copyDescs_append, hcd_t, ic, hcur]
      simp only [List.map_cons, htl]
      rfl
    · show copyDescs (cEvents (_ ++ _)) = _
      rw [hevts, cEvents_append, cEvents_append, cEvents_map_colours,
        cEvents_map_translations, List.append_nil, copyDescs_append, hcd_c, id, hcur]
      simp only [List.map_cons, htl, hcl]
      rfl
    · show (upload_loop env timeout maxN rest (upload_record env timeout maxN x st).1).1.current = _
      rw [ig, hcur, hsum]
      omega

/-- An upload whose outcome is `true` had both grid writes succeed. -/
theorem upload_grid_ok {α : Type} (r : SceneRenderer α) (info : List (UploadInformation α))
    (env : Nat → Nat → WaitStatus)
    (hok : (upload_instance_information r info env).2.2 = true) :
    (r.instanced_colours.write_data_offset r.grid_colours 5000000
      (r.base_number_instances * sizeTVec3) sizeTVec3 (env 0)).2.2 = true ∧
    (r.instanced_translations.write_data_offset r.grid_translations 5000000
      (r.base_number_instances * sizeTVec3) sizeTVec3 (env 1)).2.2 = true := by
  rcases hc : (r.instanced_colours.write_data_offset r.grid_colours 5000000
      (r.base_number_instances * sizeTVec3) sizeTVec3 (env 0)).2.2 with _ | _
  · exfalso
    simp only [upload_instance_information, hc] at hok
    simp at hok
  · rcases ht : (r.instanced_translations.write_data_offset r.grid_translations 5000000
        (r.base_number_instances * sizeTVec3) sizeTVec3 (env 1)).2.2 with _ | _
    · exfalso
      simp only [upload_instance_information, hc, ht] at hok
      simp at hok
    · exact ⟨rfl, rfl⟩

/-- Unfolding of `upload_instance_information` when both grid writes succeed. -/
theorem upload_eq_of_grid_ok {α : Type} (r : SceneRenderer α)
    (info : List (UploadInformation α)) (env : Nat → Nat → WaitStatus)
    (hc : (r.instanced_colours.write_data_offset r.grid_colours 5000000
      (r.base_number_instances * sizeTVec3) sizeTVec3 (env 0)).2.2 = true)
    (ht : (r.instanced_translations.write_data_offset r.grid_translations 5000000
      (r.base_number_instances * sizeTVec3) sizeTVec3 (env 1)).2.2 = true) :
    upload_instance_information r info env =
      ({ r with
          instanced_translations :=
            (upload_loop env 5000000 r.max_number_instances info
              { tb := (r.instanced_translations.write_data_offset r.grid_translations 5000000
                  (r.base_number_instances * sizeTVec3) sizeTVec3 (env 1)).1,
                cb := (r.instanced_colours.write_data_offset r.grid_colours 5000000
                  (r.base_number_instances * sizeTVec3) sizeTVec3 (env 0)).1,
                mri := r.model_render_info,
                current := r.base_number_instances +
                  (if r.max_number_instances <
                      r.base_number_instances + r.grid_translations.length then
                    r.max_number_instances - r.base_number_instances
                  else r.grid_translations.length),
                k := 2, ok := true }).1.tb,
          instanced_colours :=
            (upload_loop env 5000000 r.max_number_instances info
              { tb := (r.instanced_translations.write_data_offset r.grid_translations 5000000
                  (r.base_number_instances * sizeTVec3) sizeTVec3 (env 1)).1,
                cb := (r.instanced_colours.write_data_offset r.grid_colours 5000000
                  (r.base_number_instances * sizeTVec3) sizeTVec3 (env 0)).1,
                mri := r.model_render_info,
                current := r.base_number_instances +
                  (if r.max_number_instances <
                      r.base_number_instances + r.grid_translations.length then
                    r.max_number_instances - r.base_number_instances
                  else r.grid_translations.length),
                k := 2, ok := true }).1.cb,
          model_render_info :=
            (upload_loop env 5000000 r.max_number_instances info
              { tb := (r.instanced_translations.write_data_offset r.grid_translations 5000000
                  (r.base_number_instances * sizeTVec3) sizeTVec3 (env 1)).1,
                cb := (r.instanced_colours.write_data_offset r.grid_colours 5000000
                  (r.base_number_instances * sizeTVec3) sizeTVec3 (env 0)).1,
                mri := r.model_render_info,
                current := r.base_number_instances +
                  (if r.max_number_instances <
                      r.base_number_instances + r.grid_translations.length then
                    r.max_number_instances - r.base_number_instances
                  else r.grid_translations.length),
                k := 2, ok := true }).1.mri,
          current_instance_upload_index :=
            (upload_loop env 5000000 r.max_number_instances info
              { tb := (r.instanced_translations.write_data_offset r.grid_translations 5000000
                  (r.base_number_instances * sizeTVec3) sizeTVec3 (env 1)).1,
                cb := (r.instanced_colours.write_data_offset r.grid_colours 5000000
                  (r.base_number_instances * sizeTVec3) sizeTVec3 (env 0)).1,
                mri := r.model_render_info,
                current := r.base_number_instances +
                  (if r.max_number_instances <
                      r.base_number_instances + r.grid_translations.length then
                    r.max_number_instances - r.base_number_instances
                  else r.grid_translations.length),
                k := 2, ok := true }).1.current },
       (if r.max_number_instances < r.base_number_instances + r.grid_translations.length then
          [REvent.clipNotice r.grid_translations.length
            (r.max_number_instances - r.base_number_instances)]
        else []) ++
       (r.instanced_colours.write_data_offset r.grid_colours 5000000
          (r.base_number_instances * sizeTVec3) sizeTVec3 (env 0)).2.1.map REvent.colours ++
       (r.instanced_translations.write_data_offset r.grid_translations 5000000
          (r.base_number_instances * sizeTVec3) sizeTVec3 (env 1)).2.1.map REvent.translations ++
       (upload_loop env 5000000 r.max_number_instances info
          { tb := (r.instanced_translations.write_data_offset r.grid_translations 5000000
              (r.base_number_instances * sizeTVec3) sizeTVec3 (env 1)).1,
            cb := (r.instanced_colours.write_data_offset r.grid_colours 5000000
              (r.base_number_instances * sizeTVec3) sizeTVec3 (env 0)).1,
            mri := r.model_render_info,
            current := r.base_number_instances +
              (if r.max_number_instances <
                  r.base_number_instances + r.grid_translations.length then
                r.max_number_instances - r.base_number_instances
              else r.grid_translations.length),
            k := 2, ok := true }).2,
       (upload_loop env 5000000 r.max_number_instances info
          { tb := (r.instanced_translations.write_data_offset r.grid_translations 5000000
              (r.base_number_instances * sizeTVec3) sizeTVec3 (env 1)).1,
            cb := (r.instanced_colours.write_data_offset r.grid_colours 5000000
              (r.base_number_instances * sizeTVec3) sizeTVec3 (env 0)).1,
            mri := r.model_render_info,
            current := r.base_number_instances +
              (if r.max_number_instances <
                  r.base_number_instances + r.grid_translations.length then
                r.max_number_instances - r.base_number_instances
              else r.grid_translations.length),
            k := 2, ok := true }).1.ok) := by
  simp only [upload_instance_information, hc, ht]
  simp

/-! ## Claims -/

/-- C1 counterexample.  The claim asserts a batch of 3 models causes exactly
one rotation of each instance buffer's current index per top-level call.  On
a concrete renderer with a 3-instance grid and a 3-model batch, each instance
buffer's index is rotated 4 times in the single call (once for the grid write
plus once per model write) — `write_data_offset` rotates on every call, not
once per top-level batch. -/
theorem C1_claim_counterexample :
    advCount (tEvents (upload_instance_information rBatch infoBatch envAllOk).2.1) = 4 ∧
    advCount (cEvents (upload_instance_information rBatch infoBatch envAllOk).2.1) = 4 ∧
    (4 : Nat) ≠ 1 := by
  decide

/-- C1 (amended): a single `upload_instance_information` call with updates
for `n` models (each supplying translations and colours, the whole batch
fitting in capacity) rotates each instance buffer's `current_buffer_index`
`1 + n` times — once for the grid write plus once per model — not once.
Because `SceneRenderer` constructs its instance buffers with a single region,
every rotation maps the index back to 0, so all writes of the batch do land
in the one region: the grid at element offset `base_number_instances` and the
k-th model at the running offset, each model at a distinct offset past the
previous one. -/
theorem C1_batch_rotations {α : Type} (r : SceneRenderer α)
    (info : List (UploadInformation α)) (env : Nat → Nat → WaitStatus)
    (htb : r.instanced_translations.number_buffers = 1)
    (hcb : r.instanced_colours.number_buffers = 1)
    (hsome : ∀ u ∈ info, u.instance_translations.isSome = true ∧
      u.instance_colours.isSome = true)
    (hfit : r.base_number_instances + r.grid_translations.length +
      (info.map transLen).sum ≤ r.max_number_instances)
    (hok : (upload_instance_information r info env).2.2 = true) :
    advCount (tEvents (upload_instance_information r info env).2.1) = 1 + info.length ∧
    advCount (cEvents (upload_instance_information r info env).2.1) = 1 + info.length ∧
    copyDescs (tEvents (upload_instance_information r info env).2.1) =
      (0, r.base_number_instances, r.grid_translations.length) ::
        expectedCopies (r.base_number_instances + r.grid_translations.length)
          (info.map fun u => (transLen u, transLen u)) ∧
    copyDescs (cEvents (upload_instance_information r info env).2.1) =
      (0, r.base_number_instances, r.grid_colours.length) ::
        expectedCopies (r.base_number_instances + r.grid_translations.length)
          (info.map fun u => (transLen u, colourLen u)) ∧
    (upload_instance_information r info env).1.instanced_translations.current_buffer_index
      = 0 ∧
    (upload_instance_information r info env).1.instanced_colours.current_buffer_index
      = 0 := by
  obtain ⟨hc, ht⟩ := upload_grid_ok r info env hok
  have hupl := upload_eq_of_grid_ok r info env hc ht
  have hgnc : ¬ (r.max_number_instances <
      r.base_number_instances + r.grid_translations.length) := by omega
  rw [if_neg hgnc] at hupl
  rw [if_neg hgnc] at hupl
  rw [List.nil_append] at hupl
  set cw := r.instanced_colours.write_data_offset r.grid_colours 5000000
    (r.base_number_instances * sizeTVec3) sizeTVec3 (env 0) with hcw_def
  set tw := r.instanced_translations.write_data_offset r.grid_translations 5000000
    (r.base_number_instances * sizeTVec3) sizeTVec3 (env 1) with htw_def
  set st0 : LoopState α :=
    { tb := tw.1, cb := cw.1, mri := r.model_render_info,
      current := r.base_number_instances + r.grid_translations.length,
      k := 2, ok := true } with hst0_def
  have hdiv : r.base_number_instances * sizeTVec3 / sizeTVec3 = r.base_number_instances :=
    Nat.mul_div_cancel _ (by norm_num [sizeTVec3])
  have hcd_t : copyDescs tw.2.1 = [(0, r.base_number_instances, r.grid_translations.length)] := by
    rw [htw_def, write_data_offset_copyDescs, if_pos ht, htb, Nat.mod_one, hdiv]
  have hcd_c : copyDescs cw.2.1 = [(0, r.base_number_instances, r.grid_colours.length)] := by
    rw [hcw_def, write_data_offset_copyDescs, if_pos hc, hcb, Nat.mod_one, hdiv]
  have hadv_t : advCount tw.2.1 = 1 := by rw [htw_def, write_data_offset_advCount]
  have hadv_c : advCount cw.2.1 = 1 := by rw [hcw_def, write_data_offset_advCount]
  have hloop := upload_loop_clip_free env 5000000 r.max_number_instances info st0
    (by rw [hst0_def, htw_def]; show (Buffer.write_data_offset _ _ _ _ _ _).1.number_buffers = 1
        rw [write_data_offset_number_buffers, htb])
    (by rw [hst0_def, hcw_def]; show (Buffer.write_data_offset _ _ _ _ _ _).1.number_buffers = 1
        rw [write_data_offset_number_buffers, hcb])
    (by rw [hst0_def, htw_def]
        show (Buffer.write_data_offset _ _ _ _ _ _).1.current_buffer_index = 0
        rw [write_data_offset_index, htb, Nat.mod_one])
    (by rw [hst0_def, hcw_def]
        show (Buffer.write_data_offset _ _ _ _ _ _).1.current_buffer_index = 0
        rw [write_data_offset_index, hcb, Nat.mod_one])
    hsome
    (by rw [hst0_def]; show r.base_number_instances + r.grid_translations.length + _ ≤ _
        omega)
    (by rw [hupl] at hok; exact hok)
  obtain ⟨ia, ib, ic, id', ie, if', _⟩ := hloop
  rw [hupl]
  refine ⟨?_, ?_, ?_, ?_, ie, if'⟩
  · rw [tEvents_append, tEvents_append, tEvents_map_colours, tEvents_map_translations,
      List.nil_append, advCount_append, ia, hadv_t]
  · rw [cEvents_append, cEvents_append, cEvents_map_colours, cEvents_map_translations,
      List.append_nil, advCount_append, ib, hadv_c]
  · rw [tEvents_append, tEvents_append, tEvents_map_colours, tEvents_map_translations,
      List.nil_append, copyDescs_append, hcd_t, ic]
    rfl
  · rw [cEvents_append, cEvents_append, cEvents_map_colours, cEvents_map_translations,
      List.append_nil, copyDescs_append, hcd_c, id']
    rfl

/-- C1 witness: the amended statement on the concrete renderer — the
3-model batch rotates each buffer 4 times and writes at offsets 3, 6, 8, 9 in
region 0. -/
theorem C1_batch_rotations_witness :
    advCount (tEvents (upload_instance_information rBatch infoBatch envAllOk).2.1) = 1 + 3 ∧
    copyDescs (tEvents (upload_instance_information rBatch infoBatch envAllOk).2.1) =
      [(0, 3, 3), (0, 6, 2), (0, 8, 1), (0, 9, 3)] :=
  ⟨((C1_batch_rotations rBatch infoBatch envAllOk (by decide) (by decide) (by decide)
      (by decide) (by decide)).1).trans (by decide),
   ((C1_batch_rotations rBatch infoBatch envAllOk (by decide) (by decide) (by decide)
      (by decide) (by decide)).2.2.1).trans (by decide)⟩

/-- C3: on the failing input (capacity 10, grid overlay of 3 instances, one
record requesting 12), the clipping notice is emitted, the recorded draw
count is clipped to 7 and execution continues — but the host-side copy still
writes all 12 requested elements at element offset 3, i.e. elements 3..14 of
a 10-element region (bytes 36..180 of a 120-byte region): bytes ARE written
beyond the clipped instance count, an out-of-bounds write, contradicting the
claim and the function's own documentation that excess instances are
discarded. -/
theorem C3_capacity_overflow_write :
    (upload_instance_information rCap infoCap envAllOk).2.2 = true ∧
    REvent.clipNotice 12 7 ∈ (upload_instance_information rCap infoCap envAllOk).2.1 ∧
    ((upload_instance_information rCap infoCap envAllOk).1.model_render_info.getD 0
      default).instance_count = 7 ∧
    copyDescs (tEvents (upload_instance_information rCap infoCap envAllOk).2.1) =
      [(0, 0, 3), (0, 3, 12)] ∧
    copyDescs (cEvents (upload_instance_information rCap infoCap envAllOk).2.1) =
      [(0, 0, 3), (0, 3, 12)] ∧
    rCap.max_number_instances = 10 ∧
    3 + 12 > rCap.max_number_instances ∧
    sizeTVec3 * (3 + 12) > rCap.instanced_translations.size_buffer_bytes := by
  decide

/-- C8: every completed `upload_instance_information` call copies the grid
overlay's colours and translations first — the first two copies of the whole
call, into the instance buffers' next region — at element offset
`base_number_instances` (fixed at geometry-upload time), before any per-model
instance data; the offset does not depend on the update list or the point
cloud. -/
theorem C8_grid_first {α : Type} (r : SceneRenderer α)
    (info : List (UploadInformation α)) (env : Nat → Nat → WaitStatus)
    (hok : (upload_instance_information r info env).2.2 = true) :
    (rCopyDescs (upload_instance_information r info env).2.1).take 2 =
      [(false,
        (r.instanced_colours.current_buffer_index + 1) % r.instanced_colours.number_buffers,
        r.base_number_instances, r.grid_colours.length),
       (true,
        (r.instanced_translations.current_buffer_index + 1) %
          r.instanced_translations.number_buffers,
        r.base_number_instances, r.grid_translations.length)] := by
  obtain ⟨hc, ht⟩ := upload_grid_ok r info env hok
  have hupl := upload_eq_of_grid_ok r info env hc ht
  set cw := r.instanced_colours.write_data_offset r.grid_colours 5000000
    (r.base_number_instances * sizeTVec3) sizeTVec3 (env 0) with hcw_def
  set tw := r.instanced_translations.write_data_offset r.grid_translations 5000000
    (r.base_number_instances * sizeTVec3) sizeTVec3 (env 1) with htw_def
  have hdiv : r.base_number_instances * sizeTVec3 / sizeTVec3 = r.base_number_instances :=
    Nat.mul_div_cancel _ (by norm_num [sizeTVec3])
  have hcd_t : copyDescs tw.2.1 =
      [((r.instanced_translations.current_buffer_index + 1) %
          r.instanced_translations.number_buffers,
        r.base_number_instances, r.grid_translations.length)] := by
    rw [htw_def, write_data_offset_copyDescs, if_pos ht, hdiv]
  have hcd_c : copyDescs cw.2.1 =
      [((r.instanced_colours.current_buffer_index + 1) %
          r.instanced_colours.number_buffers,
        r.base_number_instances, r.grid_colours.length)] := by
    rw [hcw_def, write_data_offset_copyDescs, if_pos hc, hdiv]
  rw [hupl]
  rw [rCopyDescs_append, rCopyDescs_append, rCopyDescs_append,
    rCopyDescs_map_colours, rCopyDescs_map_translations, hcd_t, hcd_c]
  have hclip : rCopyDescs
      (if r.max_number_instances < r.base_number_instances + r.grid_translations.length then
        [REvent.clipNotice r.grid_translations.length
          (r.max_number_instances - r.base_number_instances)]
      else []) = [] := by
    split_ifs <;> rfl
  rw [hclip]
  simp

/-- C8 witness: on the concrete renderer, the first two copies of the call
are the grid colours and grid translations at the reserved offset 3. -/
theorem C8_grid_first_witness :
    (rCopyDescs (upload_instance_information rBatch infoBatch envAllOk).2.1).take 2 =
      [(false, 0, 3, 3), (true, 0, 3, 3)] :=
  (C8_grid_first rBatch infoBatch envAllOk (by decide)).trans (by decide)

/-- C2 counterexample.  The claim states that for an `N`-region buffer the
`(N+1)`-th `write_data` call wraps to region 0.  On a fresh 2-region buffer
the three calls visit regions 1, 0, 1: the third (= `(N+1)`-th) call visits
region 1, not 0 — it is the `N`-th call that wraps to 0. -/
theorem C2_claim_counterexample :
    (write_data_iter bufFix [1, 2] 5000000 12 envAllOk 3).2 = [1, 0, 1] ∧
    ¬ (write_data_iter bufFix [1, 2] 5000000 12 envAllOk 3).2.getLast? = some 0 := by
  decide

/-- C2 (amended): on a Buffer freshly constructed with `N ≥ 1` regions
(current index 0, region 0 bound), the k-th `write_data` call visits region
`k % N`; the first `N` calls visit each region exactly once (regions
`1 % N, …, N-1, 0` in cyclic order), the `N`-th call wraps to region 0, and
the `(N+1)`-th call revisits region `1 % N`.  The driver oracle answers every
first poll as signaled, so every call completes. -/
theorem C2_round_robin {α : Type} (data : List α) (sz timeout sizeT : Nat)
    (bt : BufferType) (N : Nat) (hN : 0 < N) (env : Nat → Nat → WaitStatus)
    (henv : ∀ k, ((env k) 0).signaled = true) :
    (∀ n, (write_data_iter (Buffer.new α sz N bt).1 data timeout sizeT env n).2 =
        (List.range n).map fun k => (k + 1) % N) ∧
    (write_data_iter (Buffer.new α sz N bt).1 data timeout sizeT env N).2.Nodup ∧
    (∀ j, j < N →
      j ∈ (write_data_iter (Buffer.new α sz N bt).1 data timeout sizeT env N).2) ∧
    (write_data_iter (Buffer.new α sz N bt).1 data timeout sizeT env N).2.getLast? = some 0 ∧
    (write_data_iter (Buffer.new α sz N bt).1 data timeout sizeT env (N + 1)).2.getLast?
      = some (1 % N) := by
  have hvis : ∀ n, (write_data_iter (Buffer.new α sz N bt).1 data timeout sizeT env n).2 =
      (List.range n).map fun k => (k + 1) % N :=
    fun n => (write_data_iter_fresh data sz timeout sizeT bt N env n).2.2
  have hinj : ∀ a, a < N → ∀ b, b < N → (a + 1) % N = (b + 1) % N → a = b := by
    intro a ha b hb hab
    rcases Nat.lt_or_ge (a + 1) N with ha' | ha' <;>
      rcases Nat.lt_or_ge (b + 1) N with hb' | hb'
    · rw [Nat.mod_eq_of_lt ha', Nat.mod_eq_of_lt hb'] at hab
      omega
    · have hbN : b + 1 = N := by omega
      rw [Nat.mod_eq_of_lt ha', hbN, Nat.mod_self] at hab
      omega
    · have haN : a + 1 = N := by omega
      rw [Nat.mod_eq_of_lt hb', haN, Nat.mod_self] at hab
      omega
    · omega
  refine ⟨hvis, ?_, ?_, ?_, ?_⟩
  · rw [hvis]
    exact List.Nodup.map_on
      (fun a ha b hb => hinj a (List.mem_range.mp ha) b (List.mem_range.mp hb))
      (List.nodup_range N)
  · intro j hj
    rw [hvis]
    rcases Nat.eq_zero_or_pos j with hj0 | hjpos
    · exact List.mem_map.mpr ⟨N - 1, List.mem_range.mpr (by omega),
        by rw [Nat.sub_add_cancel hN, Nat.mod_self, hj0]⟩
    · exact List.mem_map.mpr ⟨j - 1, List.mem_range.mpr (by omega),
        by rw [Nat.sub_add_cancel hjpos, Nat.mod_eq_of_lt hj]⟩
  · rw [hvis]
    cases N with
    | zero => omega
    | succ m =>
      rw [List.range_succ, List.map_append]
      rw [show List.map (fun k => (k + 1) % (m + 1)) [m] = [(m + 1) % (m + 1)] from rfl]
      rw [List.getLast?_concat, Nat.mod_self]
  · rw [hvis, List.range_succ, List.map_append]
    rw [show List.map (fun k => (k + 1) % N) [N] = [(N + 1) % N] from rfl]
    rw [List.getLast?_concat, Nat.add_mod_left]

/-- C2 witness: the amended round-robin statement evaluated on a fresh
3-region buffer — four calls visit regions 1, 2, 0, 1. -/
theorem C2_round_robin_witness :
    (write_data_iter (Buffer.new Nat 48 3 (BufferType.array 4 12)).1 [5] 7 12 envAllOk 4).2
      = [1, 2, 0, 1] :=
  ((C2_round_robin [5] 48 7 12 (BufferType.array 4 12) 3 (by decide) envAllOk
    (fun _ => rfl)).1 4).trans (by decide)

/-- C4: the fence wait performs the four escalating steps in order — a
zero-timeout poll, a plain wait up to the timeout, a wait with the
`SYNC_FLUSH_COMMANDS_BIT` hint, then `glFlush` followed by one final wait —
stopping at the first signaled result; if the fence is signaled at the first
zero-timeout poll, the call returns having issued no flush hint and no flush. -/
theorem C4_wait_escalation (fence timeout : Nat) (env : Nat → WaitStatus) :
    ((env 0).signaled = true →
      wait_for_buffer fence timeout env = ([GLEvent.clientWaitSync fence false 0], true))
    ∧ ((env 0).signaled = false → (env 1).signaled = true →
      wait_for_buffer fence timeout env =
        ([GLEvent.clientWaitSync fence false 0,
          GLEvent.clientWaitSync fence false timeout], true))
    ∧ ((env 0).signaled = false → (env 1).signaled = false → (env 2).signaled = true →
      wait_for_buffer fence timeout env =
        ([GLEvent.clientWaitSync fence false 0, GLEvent.clientWaitSync fence false timeout,
          GLEvent.clientWaitSync fence true timeout], true))
    ∧ ((env 0).signaled = false → (env 1).signaled = false → (env 2).signaled = false →
        (env 3).signaled = true →
      wait_for_buffer fence timeout env =
        ([GLEvent.clientWaitSync fence false 0, GLEvent.clientWaitSync fence false timeout,
          GLEvent.clientWaitSync fence true timeout, GLEvent.flush,
          GLEvent.clientWaitSync fence true timeout], true))
    ∧ ((env 0).signaled = false → (env 1).signaled = false → (env 2).signaled = false →
        (env 3).signaled = false →
      wait_for_buffer fence timeout env =
        ([GLEvent.clientWaitSync fence false 0, GLEvent.clientWaitSync fence false timeout,
          GLEvent.clientWaitSync fence true timeout, GLEvent.flush,
          GLEvent.clientWaitSync fence true timeout, GLEvent.reportWaitError,
          GLEvent.exitProgram (-1)], false))
    ∧ ((env 0).signaled = true →
        GLEvent.flush ∉ (wait_for_buffer fence timeout env).1 ∧
        ∀ f t, GLEvent.clientWaitSync f true t ∉ (wait_for_buffer fence timeout env).1) := by
  refine ⟨?_, ?_, ?_, ?_, ?_, ?_⟩ <;> intros <;> simp_all [wait_for_buffer]

/-- C4 witness: an already-satisfied fence yields a single zero-timeout poll. -/
theorem C4_wait_escalation_witness :
    wait_for_buffer 5 7 envAll = ([GLEvent.clientWaitSync 5 false 0], true) :=
  (C4_wait_escalation 5 7 envAll).1 (by decide)

/-- C5: when all four escalation steps fail to observe the fence signaled,
`write_data_offset` reports the diagnostic, the process terminates
(`exit(-1)`), and no copy into any region is performed — the region contents
are exactly those before the call. -/
theorem C5_fatal_wait_no_copy {α : Type} (b : Buffer α) (data : List α)
    (timeout offset_bytes sizeT : Nat) (env : Nat → WaitStatus)
    (h : ∀ k, k < 4 → (env k).signaled = false) :
    (b.write_data_offset data timeout offset_bytes sizeT env).2.2 = false ∧
    (b.write_data_offset data timeout offset_bytes sizeT env).1.regions = b.regions ∧
    copyDescs (b.write_data_offset data timeout offset_bytes sizeT env).2.1 = [] ∧
    GLEvent.reportWaitError ∈ (b.write_data_offset data timeout offset_bytes sizeT env).2.1 ∧
    GLEvent.exitProgram (-1) ∈ (b.write_data_offset data timeout offset_bytes sizeT env).2.1 := by
  have h0 := h 0 (by omega)
  have h1 := h 1 (by omega)
  have h2 := h 2 (by omega)
  have h3 := h 3 (by omega)
  have hw : ∀ f, (wait_for_buffer f timeout env).2 = false := by
    intro f
    simp [wait_for_buffer, h0, h1, h2, h3]
  have htr : ∀ f, (wait_for_buffer f timeout env).1 =
      [GLEvent.clientWaitSync f false 0, GLEvent.clientWaitSync f false timeout,
       GLEvent.clientWaitSync f true timeout, GLEvent.flush,
       GLEvent.clientWaitSync f true timeout, GLEvent.reportWaitError,
       GLEvent.exitProgram (-1)] := by
    intro f
    simp [wait_for_buffer, h0, h1, h2, h3]
  rw [(write_data_offset_spec b data timeout offset_bytes sizeT env).2 (hw _)]
  refine ⟨rfl, rfl, ?_, ?_, ?_⟩
  · show copyDescs (GLEvent.advanceIndex _ :: (wait_for_buffer _ _ _).1) = []
    show copyDescs (wait_for_buffer _ _ _).1 = []
    exact wait_for_buffer_copyDescs _ _ _
  · rw [htr]
    simp
  · rw [htr]
    simp

/-- C5 witness: the fatal path on a concrete two-region buffer with a driver
on which every wait times out. -/
theorem C5_fatal_wait_no_copy_witness :
    (bufFix.write_data_offset [1, 2] 9 0 12 envAllFail).2.2 = false ∧
    (bufFix.write_data_offset [1, 2] 9 0 12 envAllFail).1.regions = bufFix.regions ∧
    copyDescs (bufFix.write_data_offset [1, 2] 9 0 12 envAllFail).2.1 = [] ∧
    GLEvent.reportWaitError ∈ (bufFix.write_data_offset [1, 2] 9 0 12 envAllFail).2.1 ∧
    GLEvent.exitProgram (-1) ∈ (bufFix.write_data_offset [1, 2] 9 0 12 envAllFail).2.1 :=
  C5_fatal_wait_no_copy bufFix [1, 2] 9 0 12 envAllFail (fun k _ => by revert k; decide)

/-- C6 counterexample.  The claim asserts the copy lands at the given byte
offset.  `write_data_no_wait_no_binding` computes the destination in whole
elements (`offset_bytes / size_of::<T>()`): at byte offset 5 with 12-byte
elements the copy lands at element 0, i.e. byte offset `12 * 0 = 0 ≠ 5`. -/
theorem C6_claim_counterexample :
    (bufFix.write_data_no_wait_no_binding [9] 5 12).2 = [GLEvent.copyInto 0 0 1] ∧
    ¬ (12 * 0 = 5) := by
  decide

/-- C6 (amended): `write_data_no_wait_no_binding` leaves
`current_buffer_index` unchanged, touches no fence, emits no binding or wait
call — its whole trace is the single copy event — and copies the given
elements into the currently bound region at byte offset
`sizeT * (offset_bytes / sizeT)`, the given byte offset rounded down to a
multiple of the element size (equal to the given offset whenever it is
aligned, as at the only in-repo call site, which passes 0); iterating the
call any number of times changes neither the index nor the fences. -/
theorem C6_no_wait_no_rotate {α : Type} (b : Buffer α) (data : List α)
    (offset_bytes sizeT : Nat) (hidx : b.current_buffer_index < b.regions.length) :
    (b.write_data_no_wait_no_binding data offset_bytes sizeT).1.current_buffer_index
      = b.current_buffer_index ∧
    (b.write_data_no_wait_no_binding data offset_bytes sizeT).1.fences = b.fences ∧
    (b.write_data_no_wait_no_binding data offset_bytes sizeT).1.next_fence_id
      = b.next_fence_id ∧
    (b.write_data_no_wait_no_binding data offset_bytes sizeT).2 =
      [GLEvent.copyInto b.current_buffer_index (offset_bytes / sizeT) data.length] ∧
    (b.write_data_no_wait_no_binding data offset_bytes sizeT).1.regions.get?
        b.current_buffer_index =
      some (writeRegion (b.regions.getD b.current_buffer_index (fun _ => none))
        (offset_bytes / sizeT) data) ∧
    (∀ n, (nwnb_iter b data offset_bytes sizeT n).current_buffer_index
        = b.current_buffer_index ∧
      (nwnb_iter b data offset_bytes sizeT n).fences = b.fences) := by
  refine ⟨rfl, rfl, rfl, rfl, ?_, ?_⟩
  · show (b.regions.set b.current_buffer_index _).get? b.current_buffer_index = _
    rw [List.get?_set_eq_of_lt _ hidx]
  · intro n
    induction n with
    | zero => exact ⟨rfl, rfl⟩
    | succ m ih => exact ⟨ih.1, ih.2⟩

/-- C6 witness: the amended statement on a concrete buffer at the unaligned
byte offset 5. -/
theorem C6_no_wait_no_rotate_witness :
    bufFix.current_buffer_index < bufFix.regions.length ∧
    (bufFix.write_data_no_wait_no_binding [9] 5 12).1.current_buffer_index
      = bufFix.current_buffer_index ∧
    (bufFix.write_data_no_wait_no_binding [9] 5 12).2 =
      [GLEvent.copyInto bufFix.current_buffer_index (5 / 12) 1] :=
  ⟨by decide,
   (C6_no_wait_no_rotate bufFix [9] 5 12 (by decide)).1,
   (C6_no_wait_no_rotate bufFix [9] 5 12 (by decide)).2.2.2.1⟩

/-- C7: `update_fence` may be invoked repeatedly with no intervening write:
each call replaces only the current region's fence (a `glDeleteSync` of the
old fence followed by a `glFenceSync` creating the new one) and leaves the
current index, all other regions' fences, and all region contents unchanged. -/
theorem C7_update_fence_replace {α : Type} (b : Buffer α)
    (hwf : b.current_buffer_index < b.fences.length) :
    b.update_fence.1.current_buffer_index = b.current_buffer_index ∧
    b.update_fence.1.regions = b.regions ∧
    b.update_fence.1.fences.get? b.current_buffer_index = some b.next_fence_id ∧
    (∀ j, j ≠ b.current_buffer_index →
      b.update_fence.1.fences.get? j = b.fences.get? j) ∧
    b.update_fence.2 = [GLEvent.deleteSync (b.fences.getD b.current_buffer_index 0),
      GLEvent.fenceSync b.next_fence_id] ∧
    (∀ n, (update_fence_iter b n).current_buffer_index = b.current_buffer_index ∧
      (update_fence_iter b n).regions = b.regions) := by
  refine ⟨rfl, rfl, ?_, ?_, rfl, ?_⟩
  · show (b.fences.set b.current_buffer_index b.next_fence_id).get? b.current_buffer_index = _
    rw [List.get?_set_eq_of_lt _ hwf]
  · intro j hj
    show (b.fences.set b.current_buffer_index b.next_fence_id).get? j = _
    exact List.get?_set_ne _ _ (fun h => hj h.symm)
  · intro n
    induction n with
    | zero => exact ⟨rfl, rfl⟩
    | succ m ih => exact ⟨ih.1, ih.2⟩

/-- C9: every whitespace-delimited token of the clustering output file that
parses as an integer `i` is mapped through the palette at shifted slot
`i + 1` (cast to `usize`): `-1` (noise/unclustered) selects the reserved
first palette slot, any `i` with `i + 1` inside the palette selects palette
entry `i + 1`, and every index outside that range — too large or below `-1`
(which wraps past 2^64 under the cast) — is mapped to the one fixed fallback
colour `vec3(1.0, 0.75, 0.5)`, the same for all out-of-range indices. -/
theorem C9_cluster_colour_mapping (c : ClusterColour) (parse : String → Option Int)
    (contents : String) (k : Nat) (x : String) (i : Int)
    (htok : (clusterTokens contents).get? k = some x)
    (hparse : parse x = some i) :
    (usizeOfInt (i + 1) < c.colours.length →
      (read_cluster_output c parse contents).get? k =
        some (c.colours.getD (usizeOfInt (i + 1)) ⟨0, 0, 0⟩)) ∧
    (c.colours.length ≤ usizeOfInt (i + 1) →
      (read_cluster_output c parse contents).get? k = some fallbackColour) ∧
    (i = -1 → usizeOfInt (i + 1) = 0) := by
  have hmap : (read_cluster_output c parse contents).get? k =
      some (colourForIndex c i) := by
    rw [read_cluster_output, List.get?_map, htok]
    simp [clusterIndexOfToken, hparse]
  refine ⟨?_, ?_, ?_⟩
  · intro hlt
    rw [hmap, colourForIndex, ClusterColour.get_colour, if_neg (by omega)]
  · intro hge
    rw [hmap, colourForIndex, ClusterColour.get_colour, if_pos (by omega)]
  · intro hi
    subst hi
    simp [usizeOfInt]

/-- C9 witness: with a two-colour palette, token "7" (cluster index 7, shifted
slot 8, outside the palette) maps to the fixed fallback colour. -/
theorem C9_cluster_colour_mapping_witness :
    (clusterTokens "0 7").get? 1 = some "7" ∧
    parseFix "7" = some 7 ∧
    (read_cluster_output paletteFix parseFix "0 7").get? 1 = some fallbackColour :=
  ⟨by decide, by decide,
   (C9_cluster_colour_mapping paletteFix parseFix "0 7" 1 "7" 7
     (by decide) (by decide)).2.1 (by decide)⟩

/-- C10 counterexample.  The claim says the leftover tokens of an incomplete
final vertex are dropped silently; the code drops them but prints an
incomplete-last-vertex notice to stderr (`eprintln!` at ipc_receiver.rs line
155): on `"1|2|3|4"` the result is `Ok` with one (swapped) point, yet the
stderr trace is non-empty. -/
theorem C10_claim_counterexample :
    (parse_read_data (fun s => Except.ok s) "1|2|3|4").1.toOption =
      some [({ x := "1", y := "3", z := "2" } : Vec3 String)] ∧
    ¬ (parse_read_data (fun s => Except.ok s) "1|2|3|4").2 = [] := by
  decide

/-- C10 (amended): for every input splitting on `'|'` into `3k + r` tokens
(`0 ≤ r < 3`, after discarding one trailing empty-or-separator token) whose
first `3k` tokens all parse, `parse_read_data` returns `Ok` with exactly `k`
points, dropping the `r` leftover tokens of an incomplete final vertex while
logging an incomplete-vertex notice to stderr exactly when `r ≠ 0`, and point
`i` equals `(t[3i], t[3i+2], t[3i+1])`: the second and third components of
each file triple are swapped into the point's `z` and `y` fields. -/
theorem C10_parse_structure {α : Type} (parse : String → Except String α) (s : String)
    (k r : Nat) (vals : Nat → α)
    (hlen : (parseTokens s).length = 3 * k + r) (hr : r < 3)
    (hparse : ∀ v, v < 3 * k → parse ((parseTokens s).getD v "") = Except.ok (vals v)) :
    (parse_read_data parse s).1 =
      Except.ok ((List.range k).map fun i =>
        ⟨vals (3 * i), vals (3 * i + 2), vals (3 * i + 1)⟩) ∧
    ((parse_read_data parse s).2 = [] ↔ r = 0) := by
  have hround : round_number_down (3 * k + r) 3 = 3 * k := by
    have h1 : (3 * k + r) % 3 = r := by omega
    simp only [round_number_down]
    rw [if_neg (by norm_num : ¬ (3 = 0)), h1]
    rcases Nat.eq_zero_or_pos r with h0 | hpos
    · rw [if_pos h0, h0]
      omega
    · rw [if_neg (by omega)]
      omega
  have hloop : ∀ n, n ≤ k → parse_vertices parse (parseTokens s) n =
      Except.ok ((List.range n).map fun i =>
        ⟨vals (3 * i), vals (3 * i + 2), vals (3 * i + 1)⟩) := by
    intro n
    induction n with
    | zero => intro _; rfl
    | succ m ih =>
      intro hm
      have hx : parse ((parseTokens s).getD (m * 3) "") = Except.ok (vals (3 * m)) := by
        rw [Nat.mul_comm]
        exact hparse (3 * m) (by omega)
      have hy : parse ((parseTokens s).getD (m * 3 + 1) "") =
          Except.ok (vals (3 * m + 1)) := by
        rw [Nat.mul_comm]
        exact hparse (3 * m + 1) (by omega)
      have hz : parse ((parseTokens s).getD (m * 3 + 2) "") =
          Except.ok (vals (3 * m + 2)) := by
        rw [Nat.mul_comm]
        exact hparse (3 * m + 2) (by omega)
      rw [parse_vertices, ih (by omega)]
      simp only [parse_vertex, handle_parsing, hx, hy, hz, List.range_succ,
        List.map_append, List.map_cons, List.map_nil]
      rfl
  constructor
  · show parse_vertices parse (parseTokens s)
      (round_number_down (parseTokens s).length 3 / 3) = _
    rw [hlen, hround, Nat.mul_div_cancel_left k (by norm_num : (0:Nat) < 3)]
    exact hloop k le_rfl
  · show (if round_number_down (parseTokens s).length 3 ≠ (parseTokens s).length
        then _ else []) = ([] : List String) ↔ r = 0
    rw [hlen, hround]
    split_ifs with h
    · constructor
      · intro habs
        simp at habs
      · intro hr0
        exact absurd (by omega : 3 * k = 3 * k + r) h
    · have heq : 3 * k = 3 * k + r := not_ne_iff.mp h
      constructor
      · intro _
        omega
      · intro _
        rfl

/-- C10 witness: the amended statement on `"1|2|3|4"` with the identity
token parser — one point `("1", "3", "2")` and a logged notice. -/
theorem C10_parse_structure_witness :
    (parseTokens "1|2|3|4").length = 3 * 1 + 1 ∧
    (parse_read_data (fun s => Except.ok s) "1|2|3|4").1 =
      Except.ok [({ x := "1", y := "3", z := "2" } : Vec3 String)] ∧
    ¬ ((parse_read_data (fun s => Except.ok s) "1|2|3|4").2 = []) := by
  have h := C10_parse_structure (fun s => Except.ok s) "1|2|3|4" 1 1
    (fun v => (parseTokens "1|2|3|4").getD v "") (by decide) (by decide)
    (fun v _ => rfl)
  refine ⟨by decide, h.1.trans ?_, fun habs => absurd (h.2.mp habs) (by decide)⟩
  have : ((List.range 1).map fun i =>
      (⟨(parseTokens "1|2|3|4").getD (3 * i) "", (parseTokens "1|2|3|4").getD (3 * i + 2) "",
        (parseTokens "1|2|3|4").getD (3 * i + 1) ""⟩ : Vec3 String)) =
      [({ x := "1", y := "3", z := "2" } : Vec3 String)] := by decide
  rw [this]

/-- C7 witness: on a fresh two-region buffer (fences 0 and 1, next id 2), one
`update_fence` call installs fence 2 in slot 0 and leaves slot 1 alone; three
repeated calls leave index and regions unchanged. -/
theorem C7_update_fence_replace_witness :
    bufFix.current_buffer_index < bufFix.fences.length ∧
    bufFix.update_fence.1.fences.get? 0 = some 2 ∧
    bufFix.update_fence.1.fences.get? 1 = some 1 ∧
    (update_fence_iter bufFix 3).current_buffer_index = bufFix.current_buffer_index :=
  ⟨by decide,
   (C7_update_fence_replace bufFix (by decide)).2.2.1,
   (C7_update_fence_replace bufFix (by decide)).2.2.2.1 1 (by decide),
   ((C7_update_fence_replace bufFix (by decide)).2.2.2.2.2 3).1⟩

end PointCloudViz
